import Mathlib

/-!
Shallow embedding of `src/laitbox.js` (class `LaitBox`, a lightbox widget for
Bootstrap 5) together with proofs about its configuration resolution,
attribute parsing, modal provisioning, content loading and id generation.

JavaScript objects are modelled as association lists with unique update
semantics (`Object.assign` copies source properties left to right, later
sources overwriting earlier ones).  The DOM and the Bootstrap modal widget are
modelled explicitly: a document holds modal elements keyed by id and a
registry of instantiated Bootstrap modal handles.  Asynchronous behaviour
(image `onload`, `fetch` continuations) is modelled by splitting
`loadContent` into the synchronous list of DOM operations it performs at call
time and the list of operations its pending continuation performs when the
corresponding event settles.
-/

namespace LaitBox

/-- A JavaScript value as used by this program: strings, booleans, or
`undefined` (the result of reading an absent property). -/
inductive JsValue where
  | str : String → JsValue
  | bool : Bool → JsValue
  | undefined : JsValue
deriving DecidableEq, Repr

/-- A JavaScript object: an association list of own properties in insertion
order. -/
abbrev JsObject := List (String × JsValue)

/-- Property read: the value at the first (hence, for well-formed objects
with unique keys, the only) occurrence of the key, or `none` when absent. -/
def getProp (o : JsObject) (k : String) : Option JsValue :=
  match o with
  | [] => none
  | p :: rest => if p.1 == k then some p.2 else getProp rest k

/-- Property read coerced like a JS member access: absent keys read as
`undefined`. -/
def getPropJs (o : JsObject) (k : String) : JsValue :=
  (getProp o k).getD .undefined

/-- Property write `o[k] = v`: overwrite in place when the key exists,
append otherwise (JS insertion-order semantics). -/
def setProp (o : JsObject) (k : String) (v : JsValue) : JsObject :=
  match o with
  | [] => [(k, v)]
  | p :: rest => if p.1 == k then (k, v) :: rest else p :: setProp rest k v

/-- One step of `Object.assign`: copy every own property of `src` onto `t`,
in order. -/
def assignFrom (t : JsObject) (src : JsObject) : JsObject :=
  src.foldl (fun acc p => setProp acc p.1 p.2) t

/-- `Object.assign(t, s₁, …, sₙ)` (laitbox.js line 52). -/
def objectAssign (t : JsObject) (srcs : List JsObject) : JsObject :=
  srcs.foldl assignFrom t

/-- An object has well-formed (pairwise distinct) property keys, as every
object literal in the program does. -/
def keysNodup (o : JsObject) : Prop :=
  (o.map Prod.fst).Nodup

/-- First-match-wins fallback on optional values, used to state the
field-wise merge property. -/
def orElse2 {α : Type} (a b : Option α) : Option α :=
  match a with
  | some v => some v
  | none => b

/-- The trigger element handed to the constructor: its attribute map (an
absent attribute reads as JS `null`, modelled by `none`) and its `href` /
`src` members (`none` models `undefined`, `some ""` an empty string). -/
structure TriggerElement where
  attrs : List (String × String)
  href : Option String
  src : Option String
deriving DecidableEq, Repr

/-- `triggerElement.getAttribute(name)`: the attribute's string value, or
`null` (`none`) when the attribute is absent. -/
def getAttribute (el : TriggerElement) (name : String) : Option String :=
  (el.attrs.find? (fun p => p.1 == name)).map (·.2)

/-- JS `x || d` for `x` a string-or-null: `null` and the empty string are
falsy, so both fall through to `d`. -/
def jsOrDefaultStr (x : Option String) (d : String) : String :=
  match x with
  | none => d
  | some s => if s = "" then d else s

/-- JS `a || b` where both operands are string-or-undefined.  A falsy `a`
(undefined or empty) yields `b` unchanged, truthy or not. -/
def jsOr (a b : Option String) : Option String :=
  match a with
  | none => b
  | some s => if s = "" then b else some s

/-- `LaitBox.parseDataAttributes` (laitbox.js lines 69–80), returning the
object literal built from the trigger element's `data-bs-*` attributes. -/
def parseDataAttributes (el : TriggerElement) : JsObject :=
  [ ("size", .str (jsOrDefaultStr (getAttribute el "data-bs-size") "lg")),
    ("keyboard", .bool (!(getAttribute el "data-bs-keyboard" == some "false"))),
    ("staticBackdrop", .bool (getAttribute el "data-bs-static-backdrop" == some "true")),
    ("header", .bool (!(getAttribute el "data-bs-header" == some "false"))),
    ("footer", .bool (getAttribute el "data-bs-footer" == some "true")),
    ("fade", .bool (!(getAttribute el "data-bs-fade" == some "false"))),
    ("centered", .bool (!(getAttribute el "data-bs-centered" == some "false"))),
    ("scrollable", .bool (getAttribute el "data-bs-scrollable" == some "true")) ]

/-- The defaults object literal of the constructor (laitbox.js lines 52–61). -/
def defaultsObj : JsObject :=
  [ ("size", .str "lg"),
    ("keyboard", .bool true),
    ("staticBackdrop", .bool false),
    ("header", .bool true),
    ("footer", .bool false),
    ("fade", .bool true),
    ("centered", .bool true),
    ("scrollable", .bool false) ]

/-- The resolved `this.options` of the constructor (laitbox.js lines 52–61):
`Object.assign(defaults, parseDataAttributes(), options)`. -/
def resolvedOptions (el : TriggerElement) (options : JsObject) : JsObject :=
  objectAssign defaultsObj [parseDataAttributes el, options]

/-- The eight configuration field names. -/
def configFieldNames : List String :=
  ["size", "keyboard", "staticBackdrop", "header", "footer", "fade",
   "centered", "scrollable"]

/-! ### Random id generation (laitbox.js lines 167–169) -/

/-- The base-36 digit alphabet used by `Number.prototype.toString(36)`:
`0`–`9` then `a`–`z`. -/
def base36Digit (n : Nat) : Char :=
  if n < 10 then Char.ofNat (48 + n) else Char.ofNat (87 + n)

/-- `Math.random().toString(36)`.  A double in `[0, 1)` is a dyadic
rational, so its base-36 expansion is finite; we abstract the drawn double
by that digit list (`[]` for zero).  `toString(36)` renders `0` as `"0"`
and any other value as `"0."` followed by the expansion's digits. -/
def jsToString36 (frac : List Nat) : String :=
  match frac with
  | [] => "0"
  | ds => "0." ++ ⟨ds.map base36Digit⟩

/-- `String.prototype.substr(start, len)`: up to `len` characters starting
at index `start`. -/
def substr (s : String) (start len : Nat) : String :=
  ⟨(s.data.drop start).take len⟩

/-- `LaitBox.randomId` (laitbox.js lines 167–169), parameterised by the
digit expansion of the `Math.random()` draw. -/
def randomId (frac : List Nat) : String :=
  "laitbox-" ++ substr (jsToString36 frac) 2 9

/-! ### URL classification (laitbox.js line 126) -/

/-- ASCII lower-casing of one character, as the regex `i` flag applies it
to the ASCII extension alternatives. -/
def lowerAscii (c : Char) : Char :=
  if 65 ≤ c.toNat ∧ c.toNat ≤ 90 then Char.ofNat (c.toNat + 32) else c

/-- `url.match(/\.(jpeg|jpg|gif|png|svg)$/i)` is non-null exactly when the
url, lower-cased, ends in a dot followed by one of the five extensions. -/
def isImageUrl (url : String) : Bool :=
  ["jpeg", "jpg", "gif", "png", "svg"].any fun ext =>
    (("." ++ ext).data).isSuffixOf (url.data.map lowerAscii)

/-! ### DOM model: modal elements and the document -/

/-- An `<img>` element as configured by the image branch of `loadContent`
(laitbox.js lines 127–132): its `src` and inline styles. -/
structure ImgElem where
  src : String
  maxWidth : String
  maxHeight : String
  displayStyle : String
  margin : String
deriving DecidableEq, Repr

/-- The contents of the modal body region: either markup text (set through
`innerHTML`) or a single appended image (every append in the code follows a
clear, so one image is all that can be present). -/
inductive BodyContent where
  | htmlContent : String → BodyContent
  | imageContent : ImgElem → BodyContent
deriving DecidableEq, Repr

/-- The `.modal-body` region: its content and the three inline styles the
image branch sets. -/
structure BodyRegion where
  content : BodyContent
  styleDisplay : String
  styleAlignItems : String
  styleJustifyContent : String
deriving DecidableEq, Repr

/-- The body region of a freshly created modal (the template's
`<div class="modal-body"></div>`, laitbox.js line 100). -/
def emptyBody : BodyRegion :=
  { content := .htmlContent "", styleDisplay := "", styleAlignItems := "",
    styleJustifyContent := "" }

/-- A modal `<div>` as built by `initModal` (laitbox.js lines 91–104), or a
pre-existing element found by id.  `attrs` records `setAttribute` calls;
`body` is what `querySelector('.modal-body')` returns (`none` when a
pre-existing element has no body region). -/
structure ModalElem where
  id : String
  className : String
  tabIndex : Int
  attrs : List (String × String)
  dialogClassName : String
  hasHeader : Bool
  hasFooter : Bool
  body : Option BodyRegion
deriving DecidableEq, Repr

/-- JS truthiness of a member-access result, as the template literals use it. -/
def truthy : JsValue → Bool
  | .str s => !(s == "")
  | .bool b => b
  | .undefined => false

/-- String interpolation of a JS value inside a template literal. -/
def jsValueToString : JsValue → String
  | .str s => s
  | .bool true => "true"
  | .bool false => "false"
  | .undefined => "undefined"

/-- The element synthesized by `initModal` when no element with the target
id exists (laitbox.js lines 91–104), structure computed from the resolved
options exactly as the template literal does. -/
def createModalElement (targetId : String) (options : JsObject) : ModalElem :=
  { id := targetId
    className :=
      "modal " ++ (if truthy (getPropJs options "fade") then "fade" else "")
    tabIndex := -1
    attrs := [("aria-labelledby", targetId ++ "Label")]
    dialogClassName :=
      "modal-dialog modal-" ++ jsValueToString (getPropJs options "size") ++ " "
        ++ (if truthy (getPropJs options "centered") then "modal-dialog-centered" else "")
        ++ " "
        ++ (if truthy (getPropJs options "scrollable") then "modal-dialog-scrollable" else "")
    hasHeader := truthy (getPropJs options "header")
    hasFooter := truthy (getPropJs options "footer")
    body := some emptyBody }

/-- A Bootstrap modal handle registered by `new bootstrap.Modal(el, cfg)`:
its numeric identity, the id of the element it is bound to, and the config
object it was constructed with. -/
structure BootstrapInstance where
  handle : Nat
  elementId : String
  config : JsObject
deriving DecidableEq, Repr

/-- The document: modal elements present in the DOM (in insertion order)
and the Bootstrap instance registry. -/
structure Doc where
  elems : List ModalElem
  instances : List BootstrapInstance
  nextHandle : Nat
deriving DecidableEq, Repr

/-- `document.getElementById(id)` restricted to modal elements. -/
def getElementById (doc : Doc) (id : String) : Option ModalElem :=
  doc.elems.find? (fun e => e.id == id)

/-- `bootstrap.Modal.getInstance(el)` : the handle previously bound to the
element, or `null`. -/
def bootstrapGetInstance (doc : Doc) (elemId : String) : Option Nat :=
  (doc.instances.find? (fun i => i.elementId == elemId)).map (·.handle)

/-- `new bootstrap.Modal(el, cfg)`: registers and returns a fresh handle. -/
def bootstrapNewModal (doc : Doc) (elemId : String) (config : JsObject) :
    Doc × Nat :=
  ({ doc with
      instances := doc.instances ++ [⟨doc.nextHandle, elemId, config⟩],
      nextHandle := doc.nextHandle + 1 },
   doc.nextHandle)

/-- The config object `initModal` passes to `new bootstrap.Modal`
(laitbox.js lines 106–108): only the `keyboard` option. -/
def hostWidgetConfig (options : JsObject) : JsObject :=
  [("keyboard", getPropJs options "keyboard")]

/-- The target id of `initModal` (laitbox.js line 86):
`getAttribute('data-bs-target') || this.randomId()`, with the generated
random id supplied as the oracle `rid`. -/
def resolveTargetId (el : TriggerElement) (rid : String) : String :=
  jsOrDefaultStr (getAttribute el "data-bs-target") rid

/-- The state `initModal` has built just before it calls `loadContent`:
the updated document, `this.modalElement`'s id, `this.modal` (`none` models
a `null` from `getInstance`), and the url `href || src` (`none` models
`undefined`). -/
structure InitState where
  doc : Doc
  modalElementId : String
  modalHandle : Option Nat
  url : Option String
deriving DecidableEq, Repr

/-- `LaitBox.initModal` up to (not including) the `loadContent` call
(laitbox.js lines 85–114). -/
def initModalSetup (el : TriggerElement) (options : JsObject) (rid : String)
    (doc : Doc) : InitState :=
  let targetId := resolveTargetId el rid
  let url := jsOr el.href el.src
  match getElementById doc targetId with
  | none =>
      let m := createModalElement targetId options
      let doc1 : Doc := { doc with elems := doc.elems ++ [m] }
      let (doc2, h) := bootstrapNewModal doc1 targetId (hostWidgetConfig options)
      { doc := doc2, modalElementId := targetId, modalHandle := some h,
        url := url }
  | some _ =>
      { doc := doc, modalElementId := targetId,
        modalHandle := bootstrapGetInstance doc targetId, url := url }

/-! ### Content loading (laitbox.js lines 121–154) -/

/-- Outcome of the `fetch(url)` call, external to the program: the promise
rejects (network error), or a response arrives with an HTTP ok-flag and a
body whose `text()` either resolves to a string or rejects (`none`,
a decode failure).  The code never reads the ok-flag. -/
inductive FetchOutcome where
  | networkError : FetchOutcome
  | response : Bool → Option String → FetchOutcome
deriving DecidableEq, Repr

/-- One observable DOM / widget operation performed by `loadContent`. -/
inductive DomOp where
  | clearBody : DomOp
  | setBodyHTML : String → DomOp
  | setBodyStyle : String → String → DomOp
  | appendImage : ImgElem → DomOp
  | consoleError : DomOp
  | show : DomOp
deriving DecidableEq, Repr

/-- The continuation `loadContent` leaves pending: none, the image `onload`
handler's operations, or the operations the fetch promise chain performs
once it settles. -/
inductive AsyncPart where
  | noAsync : AsyncPart
  | onImageLoad : List DomOp → AsyncPart
  | onFetchSettled : List DomOp → AsyncPart
deriving DecidableEq, Repr

/-- The fixed error markup of the catch handler (laitbox.js line 150). -/
def errorMarkup : String := "<p>Error loading the content.</p>"

/-- `LaitBox.loadContent` (laitbox.js lines 121–154) for a defined url and
a present body region, as the synchronous operations on the body region
plus the pending continuation.  The image branch attaches `show` to the
image's `onload`; the HTML branch runs `fetch(url).then(r => r.text())
.then(html => …show()).catch(err => …show())`. -/
def loadContent (url : String) (fetch : FetchOutcome) :
    List DomOp × AsyncPart :=
  if isImageUrl url then
    ([ .clearBody,
       .setBodyStyle "display" "flex",
       .setBodyStyle "alignItems" "center",
       .setBodyStyle "justifyContent" "center",
       .appendImage ⟨url, "100%", "100vh", "block", "auto"⟩ ],
     .onImageLoad [.show])
  else
    ([ .clearBody ],
     .onFetchSettled
       (match fetch with
        | .response _ (some text) => [.setBodyHTML text, .show]
        | .response _ none => [.consoleError, .setBodyHTML errorMarkup, .show]
        | .networkError => [.consoleError, .setBodyHTML errorMarkup, .show]))

/-- Interpreter state for runs of DOM operations: the body region and how
many times `this.modal.show()` has been invoked. -/
structure RunState where
  body : BodyRegion
  showCount : Nat
deriving DecidableEq, Repr

/-- Apply one DOM operation to the run state. -/
def applyOp (s : RunState) : DomOp → RunState
  | .clearBody => { s with body := { s.body with content := .htmlContent "" } }
  | .setBodyHTML h => { s with body := { s.body with content := .htmlContent h } }
  | .setBodyStyle prop v =>
      if prop = "display" then { s with body := { s.body with styleDisplay := v } }
      else if prop = "alignItems" then
        { s with body := { s.body with styleAlignItems := v } }
      else if prop = "justifyContent" then
        { s with body := { s.body with styleJustifyContent := v } }
      else s
  | .appendImage img => { s with body := { s.body with content := .imageContent img } }
  | .consoleError => s
  | .show => { s with showCount := s.showCount + 1 }

/-- Run a list of DOM operations. -/
def runOps (s : RunState) (ops : List DomOp) : RunState :=
  ops.foldl applyOp s

/-- The operations of the pending continuation (run when its event fires). -/
def asyncOps : AsyncPart → List DomOp
  | .noAsync => []
  | .onImageLoad ops => ops
  | .onFetchSettled ops => ops

/-- Body region and show count after `loadContent`'s synchronous part and
its continuation have both run, starting from body `b0`. -/
def settleAll (url : String) (fetch : FetchOutcome) (b0 : BodyRegion) :
    RunState :=
  let r := loadContent url fetch
  runOps (runOps ⟨b0, 0⟩ r.1) (asyncOps r.2)

/-! ### The constructor end to end (laitbox.js lines 50–63) -/

/-- A JavaScript exception observable by the constructing caller. -/
inductive JsError where
  | typeError : String → JsError
deriving DecidableEq, Repr

/-- The body-region lookup and the two statements of `loadContent` that can
throw (laitbox.js lines 122–126): `body.innerHTML = ''` throws when
`querySelector('.modal-body')` returned `null`, and `url.match(...)` throws
when `url` is `undefined` (`href` and `src` both missing). -/
def loadContentRun (doc : Doc) (elemId : String) (url : Option String)
    (fetch : FetchOutcome) : Except JsError (List DomOp × AsyncPart) :=
  match (getElementById doc elemId).bind (·.body) with
  | none => .error (.typeError "Cannot set properties of null")
  | some _ =>
      match url with
      | none => .error (.typeError "url.match is not a function")
      | some u => .ok (loadContent u fetch)

/-- The `LaitBox` constructor (laitbox.js lines 50–63): resolve options,
run `initModal`, run `loadContent`; `.error` models an exception thrown
back to the constructing caller. -/
def constructLaitBox (el : TriggerElement) (options : JsObject) (rid : String)
    (fetch : FetchOutcome) (doc : Doc) :
    Except JsError (InitState × List DomOp × AsyncPart) :=
  let opts := resolvedOptions el options
  let st := initModalSetup el opts rid doc
  (loadContentRun st.doc st.modalElementId st.url fetch).map (fun r => (st, r))

/-- Every Bootstrap instance in the registry is bound to an element present
in the document — the invariant the browser maintains (`getInstance` only
ever returns handles created over live elements). -/
def DocInstancesCovered (doc : Doc) : Prop :=
  ∀ inst ∈ doc.instances, ∃ e ∈ doc.elems, e.id = inst.elementId

/-! ## Lemmas on the object model -/

theorem getProp_setProp (o : JsObject) (k k' : String) (v : JsValue) :
    getProp (setProp o k v) k' = if k' = k then some v else getProp o k' := by
  induction o with
  | nil =>
      by_cases h : k' = k
      · simp [setProp, getProp, h]
      · have h' : ¬ (k = k') := fun hh => h hh.symm
        simp [setProp, getProp, beq_iff_eq, h, h']
  | cons p rest ih =>
      by_cases hp : p.1 = k
      · have hstep : setProp (p :: rest) k v = (k, v) :: rest := by
          simp [setProp, beq_iff_eq, hp]
        by_cases h : k' = k
        · simp [hstep, getProp, beq_iff_eq, h]
        · have h' : ¬ (k = k') := fun hh => h hh.symm
          have hpk' : ¬ (p.1 = k') := by rw [hp]; exact h'
          simp [hstep, getProp, beq_iff_eq, h, h', hpk']
      · have hstep : setProp (p :: rest) k v = p :: setProp rest k v := by
          simp [setProp, beq_iff_eq, hp]
        by_cases hpk : p.1 = k'
        · have h : ¬ (k' = k) := fun hh => hp (hpk.trans hh)
          simp [hstep, getProp, beq_iff_eq, hpk, h]
        · simp [hstep, getProp, beq_iff_eq, hpk, ih]

theorem getProp_eq_none_iff (o : JsObject) (k : String) :
    getProp o k = none ↔ k ∉ o.map Prod.fst := by
  induction o with
  | nil => simp [getProp]
  | cons p rest ih =>
      by_cases hp : p.1 = k
      · simp [getProp, beq_iff_eq, hp]
      · have hp' : ¬ (k = p.1) := fun hh => hp hh.symm
        simp [getProp, beq_iff_eq, hp, hp', ih]

theorem getProp_isSome_of_mem (o : JsObject) (k : String)
    (h : k ∈ o.map Prod.fst) : (getProp o k).isSome = true := by
  rcases h' : getProp o k with _ | v
  · exact absurd h ((getProp_eq_none_iff o k).mp h')
  · rfl

theorem getProp_assignFrom (t s : JsObject) (k : String) (hs : keysNodup s) :
    getProp (assignFrom t s) k = orElse2 (getProp s k) (getProp t k) := by
  induction s generalizing t with
  | nil => simp [assignFrom, getProp, orElse2]
  | cons p rest ih =>
      have hs' : p.1 ∉ rest.map Prod.fst ∧ keysNodup rest := by
        simpa [keysNodup, List.nodup_cons] using hs
      have hstep : assignFrom t (p :: rest) = assignFrom (setProp t p.1 p.2) rest := rfl
      rw [hstep, ih _ hs'.2, getProp_setProp]
      by_cases hk : p.1 = k
      · subst hk
        have hrest : getProp rest p.1 = none :=
          (getProp_eq_none_iff rest p.1).mpr hs'.1
        simp [getProp, beq_iff_eq, hrest, orElse2]
      · have hk' : ¬ (k = p.1) := fun h => hk h.symm
        simp [getProp, beq_iff_eq, hk, hk', orElse2]

theorem getProp_objectAssign2 (d a o : JsObject) (k : String)
    (ha : keysNodup a) (ho : keysNodup o) :
    getProp (objectAssign d [a, o]) k =
      orElse2 (getProp o k) (orElse2 (getProp a k) (getProp d k)) := by
  show getProp (assignFrom (assignFrom d a) o) k = _
  rw [getProp_assignFrom _ _ _ ho, getProp_assignFrom _ _ _ ha]

theorem keys_parseDataAttributes (el : TriggerElement) :
    (parseDataAttributes el).map Prod.fst = configFieldNames := rfl

theorem keysNodup_parseDataAttributes (el : TriggerElement) :
    keysNodup (parseDataAttributes el) := by
  unfold keysNodup
  rw [keys_parseDataAttributes]
  decide

/-! ## Field extraction lemmas for `parseDataAttributes` -/

theorem getProp_parse_size (el : TriggerElement) :
    getProp (parseDataAttributes el) "size"
      = some (.str (jsOrDefaultStr (getAttribute el "data-bs-size") "lg")) := rfl

theorem getProp_parse_keyboard (el : TriggerElement) :
    getProp (parseDataAttributes el) "keyboard"
      = some (.bool (!(getAttribute el "data-bs-keyboard" == some "false"))) := rfl

theorem getProp_parse_staticBackdrop (el : TriggerElement) :
    getProp (parseDataAttributes el) "staticBackdrop"
      = some (.bool (getAttribute el "data-bs-static-backdrop" == some "true")) := rfl

theorem getProp_parse_header (el : TriggerElement) :
    getProp (parseDataAttributes el) "header"
      = some (.bool (!(getAttribute el "data-bs-header" == some "false"))) := rfl

theorem getProp_parse_footer (el : TriggerElement) :
    getProp (parseDataAttributes el) "footer"
      = some (.bool (getAttribute el "data-bs-footer" == some "true")) := rfl

theorem getProp_parse_fade (el : TriggerElement) :
    getProp (parseDataAttributes el) "fade"
      = some (.bool (!(getAttribute el "data-bs-fade" == some "false"))) := rfl

theorem getProp_parse_centered (el : TriggerElement) :
    getProp (parseDataAttributes el) "centered"
      = some (.bool (!(getAttribute el "data-bs-centered" == some "false"))) := rfl

theorem getProp_parse_scrollable (el : TriggerElement) :
    getProp (parseDataAttributes el) "scrollable"
      = some (.bool (getAttribute el "data-bs-scrollable" == some "true")) := rfl

/-! ## Claim theorems -/

/-- C1: for every defaults record and every attribute-derived and explicit
options record (each with well-formed keys), the resolved configuration is
the field-wise shallow merge with precedence explicit > attribute > default;
in particular `resolve({size:'lg'},{size:'sm'},{size:'xl'}).size = 'xl'` and
`resolve({size:'lg'},{size:'sm'},{}).size = 'sm'`. -/
theorem resolve_fieldwise_precedence (d a o : JsObject) (k : String)
    (ha : keysNodup a) (ho : keysNodup o) :
    (getProp (objectAssign d [a, o]) k
        = orElse2 (getProp o k) (orElse2 (getProp a k) (getProp d k))) ∧
    getProp (objectAssign [("size", .str "lg")]
        [[("size", .str "sm")], [("size", .str "xl")]]) "size"
      = some (.str "xl") ∧
    getProp (objectAssign [("size", .str "lg")]
        [[("size", .str "sm")], []]) "size"
      = some (.str "sm") :=
  ⟨getProp_objectAssign2 d a o k ha ho, by decide, by decide⟩

/-- Witness for C1 at concrete inputs: the defaults object merged with an
attribute layer carrying `size = 'sm'` and an explicit layer carrying
`size = 'xl'`. -/
theorem resolve_fieldwise_precedence_witness :
    getProp (objectAssign defaultsObj
        [[("size", JsValue.str "sm")], [("size", JsValue.str "xl")]]) "size"
      = orElse2 (getProp [("size", JsValue.str "xl")] "size")
          (orElse2 (getProp [("size", JsValue.str "sm")] "size")
            (getProp defaultsObj "size")) :=
  (resolve_fieldwise_precedence defaultsObj [("size", .str "sm")]
    [("size", .str "xl")] "size" (by unfold keysNodup; decide)
    (by unfold keysNodup; decide)).1

/-- C2 counterexample: an attribute `data-bs-size` that is present with the
empty-string value is not passed through verbatim — `'' || 'lg'` falls
through to `'lg'`, so the parsed size is `'lg'`, not `''`. -/
theorem parse_size_empty_attr_counterexample :
    getAttribute ⟨[("data-bs-size", "")], none, none⟩ "data-bs-size"
      = some "" ∧
    getProp (parseDataAttributes ⟨[("data-bs-size", "")], none, none⟩) "size"
      = some (.str "lg") ∧
    getProp (parseDataAttributes ⟨[("data-bs-size", "")], none, none⟩) "size"
      ≠ some (.str "") := by
  refine ⟨rfl, rfl, ?_⟩
  decide

/-- C2 (amended): for every trigger element the parsed `keyboard`,
`header`, `centered` and `fade` are false exactly when the corresponding
attribute's value is the literal string `'false'` (and true otherwise);
`staticBackdrop`, `footer` and `scrollable` are true exactly when the
attribute's value is the literal string `'true'` (and false otherwise);
and `size` is the attribute's value when the attribute is present with a
non-empty value, else `'lg'` (an absent attribute and a present-but-empty
attribute both yield `'lg'`). -/
theorem parse_data_attributes_fields (el : TriggerElement) :
    ((getProp (parseDataAttributes el) "keyboard" = some (.bool false)
        ↔ getAttribute el "data-bs-keyboard" = some "false") ∧
     (getProp (parseDataAttributes el) "keyboard" = some (.bool true)
        ↔ getAttribute el "data-bs-keyboard" ≠ some "false")) ∧
    ((getProp (parseDataAttributes el) "header" = some (.bool false)
        ↔ getAttribute el "data-bs-header" = some "false") ∧
     (getProp (parseDataAttributes el) "header" = some (.bool true)
        ↔ getAttribute el "data-bs-header" ≠ some "false")) ∧
    ((getProp (parseDataAttributes el) "centered" = some (.bool false)
        ↔ getAttribute el "data-bs-centered" = some "false") ∧
     (getProp (parseDataAttributes el) "centered" = some (.bool true)
        ↔ getAttribute el "data-bs-centered" ≠ some "false")) ∧
    ((getProp (parseDataAttributes el) "fade" = some (.bool false)
        ↔ getAttribute el "data-bs-fade" = some "false") ∧
     (getProp (parseDataAttributes el) "fade" = some (.bool true)
        ↔ getAttribute el "data-bs-fade" ≠ some "false")) ∧
    ((getProp (parseDataAttributes el) "staticBackdrop" = some (.bool true)
        ↔ getAttribute el "data-bs-static-backdrop" = some "true") ∧
     (getProp (parseDataAttributes el) "staticBackdrop" = some (.bool false)
        ↔ getAttribute el "data-bs-static-backdrop" ≠ some "true")) ∧
    ((getProp (parseDataAttributes el) "footer" = some (.bool true)
        ↔ getAttribute el "data-bs-footer" = some "true") ∧
     (getProp (parseDataAttributes el) "footer" = some (.bool false)
        ↔ getAttribute el "data-bs-footer" ≠ some "true")) ∧
    ((getProp (parseDataAttributes el) "scrollable" = some (.bool true)
        ↔ getAttribute el "data-bs-scrollable" = some "true") ∧
     (getProp (parseDataAttributes el) "scrollable" = some (.bool false)
        ↔ getAttribute el "data-bs-scrollable" ≠ some "true")) ∧
    (∀ s, getAttribute el "data-bs-size" = some s → s ≠ "" →
        getProp (parseDataAttributes el) "size" = some (.str s)) ∧
    ((getAttribute el "data-bs-size" = none ∨
        getAttribute el "data-bs-size" = some "") →
      getProp (parseDataAttributes el) "size" = some (.str "lg")) := by
  rw [getProp_parse_keyboard, getProp_parse_header, getProp_parse_centered,
    getProp_parse_fade, getProp_parse_staticBackdrop, getProp_parse_footer,
    getProp_parse_scrollable, getProp_parse_size]
  refine ⟨⟨?_, ?_⟩, ⟨?_, ?_⟩, ⟨?_, ?_⟩, ⟨?_, ?_⟩, ⟨?_, ?_⟩, ⟨?_, ?_⟩,
    ⟨?_, ?_⟩, ?_, ?_⟩ <;>
    simp [beq_iff_eq, jsOrDefaultStr]
  · intro s hs hne
    simp [hs, hne]
  · rintro (hs | hs) <;> simp [hs]

/-- Witness for C2 at a concrete element: `data-bs-header="no"` parses as
`header = true` (the string is not `'false'`) while `data-bs-footer="no"`
parses as `footer = false` (the string is not `'true'`). -/
theorem parse_data_attributes_fields_witness :
    getProp (parseDataAttributes
        ⟨[("data-bs-header", "no"), ("data-bs-footer", "no")], none, none⟩)
      "header" = some (.bool true) ∧
    getProp (parseDataAttributes
        ⟨[("data-bs-header", "no"), ("data-bs-footer", "no")], none, none⟩)
      "footer" = some (.bool false) :=
  ⟨((parse_data_attributes_fields
      ⟨[("data-bs-header", "no"), ("data-bs-footer", "no")], none, none⟩).2.1.2).mpr
      (by decide),
   ((parse_data_attributes_fields
      ⟨[("data-bs-header", "no"), ("data-bs-footer", "no")], none, none⟩).2.2.2.2.2.1.2).mpr
      (by decide)⟩

/-- C10: the attribute layer is total — for every trigger element every one
of the eight configuration fields is present in `parseDataAttributes`'s
result — and consequently the resolved value of every configuration field
is independent of the defaults object. -/
theorem attribute_layer_total (el : TriggerElement) (opts d d' : JsObject)
    (k : String) (hk : k ∈ configFieldNames) (ho : keysNodup opts) :
    (getProp (parseDataAttributes el) k).isSome = true ∧
    getProp (objectAssign d [parseDataAttributes el, opts]) k
      = getProp (objectAssign d' [parseDataAttributes el, opts]) k := by
  have hmem : k ∈ (parseDataAttributes el).map Prod.fst := by
    rw [keys_parseDataAttributes]; exact hk
  have hsome := getProp_isSome_of_mem (parseDataAttributes el) k hmem
  refine ⟨hsome, ?_⟩
  obtain ⟨v, hv⟩ := Option.isSome_iff_exists.mp hsome
  rw [getProp_objectAssign2 _ _ _ _ (keysNodup_parseDataAttributes el) ho,
    getProp_objectAssign2 _ _ _ _ (keysNodup_parseDataAttributes el) ho, hv]
  cases getProp opts k <;> simp [orElse2]

/-- Witness for C10 at a concrete element with no attributes, empty
explicit options and two different defaults objects. -/
theorem attribute_layer_total_witness :
    (getProp (parseDataAttributes ⟨[], none, none⟩) "footer").isSome = true ∧
    getProp (objectAssign defaultsObj [parseDataAttributes ⟨[], none, none⟩, []])
        "footer"
      = getProp (objectAssign [] [parseDataAttributes ⟨[], none, none⟩, []])
        "footer" :=
  attribute_layer_total ⟨[], none, none⟩ [] defaultsObj [] "footer"
    (by decide) (by unfold keysNodup; decide)

/-- C6: the content loader classifies a url as an image exactly when the
url, lower-cased, ends in a dot followed by one of the five extensions
`jpeg`, `jpg`, `gif`, `png`, `svg`; in particular `a/b/pic.PNG` is an
image while `a/b/page.html` and `a/b/page` are HTML. -/
theorem classify_image_url (url : String) :
    (isImageUrl url = true ↔
      ∃ ext ∈ ["jpeg", "jpg", "gif", "png", "svg"],
        ("." ++ ext).data <:+ url.data.map lowerAscii) ∧
    isImageUrl "a/b/pic.PNG" = true ∧
    isImageUrl "a/b/page.html" = false ∧
    isImageUrl "a/b/page" = false := by
  refine ⟨?_, by decide, by decide, by decide⟩
  simp [isImageUrl, List.any_eq_true, List.isSuffixOf_iff_suffix]

/-- The characters `randomId` may emit after its prefix. -/
theorem base36Digit_mem_alphabet : ∀ d, d < 36 →
    base36Digit d ∈ "0123456789abcdefghijklmnopqrstuvwxyz".data := by
  decide

/-- `base36Digit` is injective below 36, as a list-map statement. -/
theorem map_base36Digit_inj (l1 : List Nat) :
    ∀ l2 : List Nat, (∀ d ∈ l1, d < 36) → (∀ d ∈ l2, d < 36) →
      l1.map base36Digit = l2.map base36Digit → l1 = l2 := by
  have hinj : ∀ d1, d1 < 36 → ∀ d2, d2 < 36 →
      base36Digit d1 = base36Digit d2 → d1 = d2 := by decide
  induction l1 with
  | nil =>
      intro l2 _ _ h
      cases l2 with
      | nil => rfl
      | cons b bs => simp at h
  | cons a as ih =>
      intro l2 h1 h2 h
      cases l2 with
      | nil => simp at h
      | cons b bs =>
          simp only [List.map_cons, List.cons.injEq] at h
          have hab := hinj a (h1 a (by simp)) b (h2 b (by simp)) h.1
          subst hab
          have htl := ih bs (fun d hd => h1 d (by simp [hd]))
            (fun d hd => h2 d (by simp [hd])) h.2
          rw [htl]

/-- The characters of a generated id: the fixed prefix followed by the
first nine (or fewer) digits of the random draw's expansion. -/
theorem randomId_data (frac : List Nat) :
    (randomId frac).data = "laitbox-".data ++ (frac.take 9).map base36Digit := by
  cases frac with
  | nil => rfl
  | cons d rest =>
      have h : (randomId (d :: rest)).data
          = "laitbox-".data ++ ((d :: rest).map base36Digit).take 9 := rfl
      rw [h, ← List.map_take]

/-- C9 counterexample: when `Math.random()` draws `0.5` the base-36
rendering is `"0.i"`, so `substr(2, 9)` yields a single character and the
generated id is `laitbox-i` — the suffix is not exactly 9 characters. -/
theorem randomId_short_expansion_counterexample :
    randomId [18] = "laitbox-i" ∧
    ((randomId [18]).data.drop 8).length = 1 ∧
    ((randomId [18]).data.drop 8).length ≠ 9 := by
  refine ⟨rfl, rfl, by decide⟩

/-- C9 (amended): every generated identifier is the prefix `laitbox-`
followed by `min 9 n` base-36 characters, where `n` is the length of the
random draw's base-36 fractional expansion; the suffix is exactly 9
characters whenever the expansion has at least 9 digits (the typical,
high-probability case), and two draws whose first nine digits differ give
different identifiers. -/
theorem randomId_format (frac : List Nat) (h : ∀ d ∈ frac, d < 36) :
    (randomId frac).data.take 8 = "laitbox-".data ∧
    (randomId frac).data.length = 8 + min 9 frac.length ∧
    (∀ c ∈ (randomId frac).data.drop 8,
        c ∈ "0123456789abcdefghijklmnopqrstuvwxyz".data) ∧
    (9 ≤ frac.length → (randomId frac).data.length = 17) ∧
    (∀ frac' : List Nat, (∀ d ∈ frac', d < 36) →
        frac.take 9 ≠ frac'.take 9 → randomId frac ≠ randomId frac') := by
  have hpre : ("laitbox-".data).length = 8 := rfl
  refine ⟨?_, ?_, ?_, ?_, ?_⟩
  · rw [randomId_data]; exact List.take_left' hpre
  · rw [randomId_data]
    simp [List.length_append, List.length_take]
    omega
  · rw [randomId_data, List.drop_left' hpre]
    intro c hc
    obtain ⟨d, hd, rfl⟩ := List.mem_map.mp hc
    exact base36Digit_mem_alphabet d (h d (List.mem_of_mem_take hd))
  · intro h9
    rw [randomId_data]
    simp [List.length_append, List.length_take]
    omega
  · intro frac' h' hne heq
    apply hne
    have hd : (randomId frac).data = (randomId frac').data := by rw [heq]
    rw [randomId_data, randomId_data frac'] at hd
    exact map_base36Digit_inj _ _ (fun d hd' => h d (List.mem_of_mem_take hd'))
      (fun d hd' => h' d (List.mem_of_mem_take hd'))
      (List.append_cancel_left hd)

/-- Witness for C9 at a ten-digit expansion: the generated id has the full
17 characters. -/
theorem randomId_format_witness :
    (randomId [0, 1, 2, 3, 4, 5, 6, 7, 8, 35]).data.length = 17 :=
  (randomId_format [0, 1, 2, 3, 4, 5, 6, 7, 8, 35] (by decide)).2.2.2.1
    (by decide)

/-- C3 counterexample: a non-2xx response whose body still decodes (here a
`500`-style response carrying the text `gateway timeout`) does not reject
the promise chain — `response.text()` resolves — so the code takes the
success path: the body region receives the response text verbatim, not the
fixed error message. -/
theorem non2xx_response_not_error_counterexample :
    (settleAll "a/b/page.html" (.response false (some "gateway timeout"))
        emptyBody).body.content = .htmlContent "gateway timeout" ∧
    (settleAll "a/b/page.html" (.response false (some "gateway timeout"))
        emptyBody).body.content ≠ .htmlContent errorMarkup ∧
    (settleAll "a/b/page.html" (.response false (some "gateway timeout"))
        emptyBody).showCount = 1 := by
  refine ⟨rfl, ?_, rfl⟩
  decide

/-- C3 (amended): for every HTML-classified load, the synchronous part only
clears the body and leaves a fetch continuation pending; when the fetch
rejects (network error) or its text decoding rejects, the continuation sets
the body to the fixed error message and still invokes display exactly once;
when a response's text decodes — whatever its HTTP status — the body is set
to that text verbatim and display is invoked exactly once.  In no case is
an error surfaced to the caller. -/
theorem html_fetch_paths (url : String) (fetch : FetchOutcome)
    (b0 : BodyRegion) (h : isImageUrl url = false) :
    (loadContent url fetch).1 = [.clearBody] ∧
    (∃ ops, (loadContent url fetch).2 = .onFetchSettled ops) ∧
    ((fetch = .networkError ∨ (∃ ok, fetch = .response ok none)) →
        (settleAll url fetch b0).body.content = .htmlContent errorMarkup ∧
        (settleAll url fetch b0).showCount = 1) ∧
    (∀ ok text, fetch = .response ok (some text) →
        (settleAll url fetch b0).body.content = .htmlContent text ∧
        (settleAll url fetch b0).showCount = 1) := by
  cases fetch with
  | networkError =>
      simp [loadContent, h, settleAll, asyncOps, runOps, applyOp]
  | response ok t =>
      cases t with
      | none => simp [loadContent, h, settleAll, asyncOps, runOps, applyOp]
      | some text =>
          simp [loadContent, h, settleAll, asyncOps, runOps, applyOp]

/-- Witness for C3 at a rejecting fetch for `a/b/page`: the settled body
carries the fixed error markup. -/
theorem html_fetch_paths_witness :
    (settleAll "a/b/page" .networkError emptyBody).body.content
      = .htmlContent errorMarkup :=
  ((html_fetch_paths "a/b/page" .networkError emptyBody (by decide)).2.2.1
    (Or.inl rfl)).1

/-- C7: for every image-classified load, the body is first cleared, the
image element is created bound to the url with responsive constraints
(`max-width 100%`, `max-height 100vh`, block display, auto margins) while
the body region switches to flex layout centering both axes, and display is
deferred to the image's `onload` handler: no show happens synchronously,
and firing the load event shows exactly once. -/
theorem image_load_path (url : String) (fetch : FetchOutcome)
    (b0 : BodyRegion) (h : isImageUrl url = true) :
    (loadContent url fetch).1.head? = some .clearBody ∧
    (runOps ⟨b0, 0⟩ (loadContent url fetch).1).body
      = { content := .imageContent ⟨url, "100%", "100vh", "block", "auto"⟩,
          styleDisplay := "flex", styleAlignItems := "center",
          styleJustifyContent := "center" } ∧
    (runOps ⟨b0, 0⟩ (loadContent url fetch).1).showCount = 0 ∧
    (loadContent url fetch).2 = .onImageLoad [.show] ∧
    (settleAll url fetch b0).showCount = 1 := by
  simp [loadContent, h, settleAll, asyncOps, runOps, applyOp]

/-- Witness for C7 at `cat.png`: no synchronous show, one show once the
image load event has fired. -/
theorem image_load_path_witness :
    (runOps ⟨emptyBody, 0⟩
        (loadContent "cat.png" .networkError).1).showCount = 0 ∧
    (settleAll "cat.png" .networkError emptyBody).showCount = 1 :=
  ⟨(image_load_path "cat.png" .networkError emptyBody (by decide)).2.2.1,
   (image_load_path "cat.png" .networkError emptyBody (by decide)).2.2.2.2⟩

/-- C4 (code bug): for a configuration with `staticBackdrop = true` the
synthesized element carries no `data-bs-backdrop` marking at all — its only
set attribute is `aria-labelledby` — and the config handed to the host
widget contains only `keyboard`; the `staticBackdrop` option is parsed and
resolved but never applied anywhere, contradicting the library's own
documentation of the option.  Keyboard, by contrast, is passed through. -/
theorem staticBackdrop_never_applied :
    getProp (resolvedOptions
        ⟨[("data-bs-static-backdrop", "true"), ("data-bs-target", "demo")],
         some "page.html", none⟩ []) "staticBackdrop" = some (.bool true) ∧
    (createModalElement "demo" (resolvedOptions
        ⟨[("data-bs-static-backdrop", "true"), ("data-bs-target", "demo")],
         some "page.html", none⟩ [])).attrs
      = [("aria-labelledby", "demoLabel")] ∧
    (createModalElement "demo" (resolvedOptions
        ⟨[("data-bs-static-backdrop", "true"), ("data-bs-target", "demo")],
         some "page.html", none⟩ [])).attrs.find?
        (fun p => p.1 == "data-bs-backdrop") = none ∧
    (initModalSetup
        ⟨[("data-bs-static-backdrop", "true"), ("data-bs-target", "demo")],
         some "page.html", none⟩
        (resolvedOptions
          ⟨[("data-bs-static-backdrop", "true"), ("data-bs-target", "demo")],
           some "page.html", none⟩ [])
        "laitbox-abcdefghi" ⟨[], [], 0⟩).doc.instances
      = [⟨0, "demo", [("keyboard", .bool true)]⟩] ∧
    getProp (hostWidgetConfig (resolvedOptions
        ⟨[("data-bs-static-backdrop", "true"), ("data-bs-target", "demo")],
         some "page.html", none⟩ [])) "backdrop" = none ∧
    hostWidgetConfig (resolvedOptions
        ⟨[("data-bs-static-backdrop", "true"), ("data-bs-keyboard", "false"),
          ("data-bs-target", "demo")], some "page.html", none⟩ [])
      = [("keyboard", .bool false)] := by
  decide

/-! ## Provisioning lemmas -/

theorem getElementById_created (doc : Doc) (tid : String) (m : ModalElem)
    (hfind : getElementById doc tid = none) (hm : m.id = tid)
    (insts : List BootstrapInstance) (nh : Nat) :
    getElementById ⟨doc.elems ++ [m], insts, nh⟩ tid = some m := by
  simp only [getElementById] at hfind ⊢
  rw [List.find?_append, hfind]
  simp [hm]

theorem instances_find_none_of_no_elem (doc : Doc) (tid : String)
    (hdoc : DocInstancesCovered doc) (h : getElementById doc tid = none) :
    doc.instances.find? (fun i => i.elementId == tid) = none := by
  rw [List.find?_eq_none]
  intro inst hinst
  simp only [beq_iff_eq]
  intro he
  obtain ⟨e, he', hid⟩ := hdoc inst hinst
  have h' : doc.elems.find? (fun e => e.id == tid) = none := h
  have hnone := List.find?_eq_none.mp h' e he'
  simp only [beq_iff_eq] at hnone
  exact hnone (hid.trans he)

/-- C5: provisioning is idempotent per target identifier.  When an element
with the target id already exists, `initModal` leaves the document
untouched and takes its handle from the host widget's instance lookup; and
running the provisioning twice in sequence yields the same document, the
same dialog element id and the same handle the second time (no duplicate
element, no duplicate handle). -/
theorem provision_idempotent (el : TriggerElement) (options : JsObject)
    (rid : String) (doc : Doc) (hdoc : DocInstancesCovered doc) :
    (∀ m, getElementById doc (resolveTargetId el rid) = some m →
        (initModalSetup el options rid doc).doc = doc ∧
        (initModalSetup el options rid doc).modalHandle
          = bootstrapGetInstance doc (resolveTargetId el rid)) ∧
    (initModalSetup el options rid
        (initModalSetup el options rid doc).doc).doc
      = (initModalSetup el options rid doc).doc ∧
    (initModalSetup el options rid
        (initModalSetup el options rid doc).doc).modalElementId
      = (initModalSetup el options rid doc).modalElementId ∧
    (initModalSetup el options rid
        (initModalSetup el options rid doc).doc).modalHandle
      = (initModalSetup el options rid doc).modalHandle := by
  constructor
  · intro m hm
    simp [initModalSetup, hm]
  · cases hfind : getElementById doc (resolveTargetId el rid) with
    | some m =>
        simp [initModalSetup, hfind]
    | none =>
        have h1 : getElementById
            ⟨doc.elems ++ [createModalElement (resolveTargetId el rid) options],
             doc.instances ++ [⟨doc.nextHandle, resolveTargetId el rid,
               hostWidgetConfig options⟩],
             doc.nextHandle + 1⟩ (resolveTargetId el rid)
            = some (createModalElement (resolveTargetId el rid) options) :=
          getElementById_created doc _ _ hfind rfl _ _
        have h2 := instances_find_none_of_no_elem doc _ hdoc hfind
        simp [initModalSetup, hfind, bootstrapNewModal, h1,
          bootstrapGetInstance, List.find?_append, h2]

/-- Witness for C5: provisioning twice from the empty document with target
id `x` leaves the document of the second run equal to that of the first. -/
theorem provision_idempotent_witness :
    (initModalSetup ⟨[("data-bs-target", "x")], some "a.html", none⟩ []
        "laitbox-r"
        (initModalSetup ⟨[("data-bs-target", "x")], some "a.html", none⟩ []
          "laitbox-r" ⟨[], [], 0⟩).doc).doc
      = (initModalSetup ⟨[("data-bs-target", "x")], some "a.html", none⟩ []
          "laitbox-r" ⟨[], [], 0⟩).doc ∧
    (initModalSetup ⟨[("data-bs-target", "x")], some "a.html", none⟩ []
        "laitbox-r"
        (initModalSetup ⟨[("data-bs-target", "x")], some "a.html", none⟩ []
          "laitbox-r" ⟨[], [], 0⟩).doc).modalHandle
      = (initModalSetup ⟨[("data-bs-target", "x")], some "a.html", none⟩ []
          "laitbox-r" ⟨[], [], 0⟩).modalHandle :=
  ⟨(provision_idempotent ⟨[("data-bs-target", "x")], some "a.html", none⟩ []
      "laitbox-r" ⟨[], [], 0⟩ (by intro inst hinst; simp at hinst)).2.1,
   (provision_idempotent ⟨[("data-bs-target", "x")], some "a.html", none⟩ []
      "laitbox-r" ⟨[], [], 0⟩ (by intro inst hinst; simp at hinst)).2.2.2⟩

/-- C8 counterexample: a trigger element with neither `href` nor `src`
(e.g. a plain `<div>`) gives `url = undefined`, and `url.match(...)` inside
`loadContent` throws a `TypeError` that propagates synchronously out of the
constructor to the caller. -/
theorem construct_throws_without_url :
    constructLaitBox ⟨[], none, none⟩ [] "laitbox-abcdefghi" .networkError
        ⟨[], [], 0⟩
      = .error (.typeError "url.match is not a function") := rfl

/-- C8 (amended): constructing a `LaitBox` never throws back to the caller
provided the trigger element exposes a content url (`href` or `src`
present and the first non-empty) and, when an element under the target id
already exists in the document, that element has a body region.  The two
exceptions forced by the code are an undefined url (`url.match` throws a
`TypeError`) and a pre-existing dialog element with no `.modal-body` (the
`innerHTML` write throws); all fetch failures are handled locally in the
promise chain and the image-load-failure path merely stalls without
throwing. -/
theorem construct_no_throw (el : TriggerElement) (options : JsObject)
    (rid : String) (fetch : FetchOutcome) (doc : Doc)
    (hurl : (jsOr el.href el.src).isSome = true)
    (hbody : ∀ m, getElementById doc (resolveTargetId el rid) = some m →
        m.body.isSome = true) :
    (constructLaitBox el options rid fetch doc).isOk = true := by
  obtain ⟨u, hu⟩ := Option.isSome_iff_exists.mp hurl
  unfold constructLaitBox
  cases hfind : getElementById doc (resolveTargetId el rid) with
  | some m =>
      obtain ⟨b, hb⟩ := Option.isSome_iff_exists.mp (hbody m hfind)
      simp [initModalSetup, hfind, loadContentRun, hb, hu, Except.isOk,
        Except.toBool, Except.map]
  | none =>
      have h1 : getElementById
          ⟨doc.elems ++ [createModalElement (resolveTargetId el rid)
            (resolvedOptions el options)],
           doc.instances ++ [⟨doc.nextHandle, resolveTargetId el rid,
             hostWidgetConfig (resolvedOptions el options)⟩],
           doc.nextHandle + 1⟩ (resolveTargetId el rid)
          = some (createModalElement (resolveTargetId el rid)
              (resolvedOptions el options)) :=
        getElementById_created doc _ _ hfind rfl _ _
      have h2 : (createModalElement (resolveTargetId el rid)
          (resolvedOptions el options)).body = some emptyBody := rfl
      simp [initModalSetup, hfind, bootstrapNewModal, loadContentRun, h1, h2,
        hu, Except.isOk, Except.toBool, Except.map]

/-- Witness for C8 at an image-url trigger and the empty document. -/
theorem construct_no_throw_witness :
    (constructLaitBox ⟨[], some "cat.png", none⟩ [] "laitbox-abcdefghi"
        .networkError ⟨[], [], 0⟩).isOk = true :=
  construct_no_throw ⟨[], some "cat.png", none⟩ [] "laitbox-abcdefghi"
    .networkError ⟨[], [], 0⟩ (by decide)
    (by intro m hm; simp [getElementById] at hm)

end LaitBox

